import Mathlib

/-!
# platform-disk-api: verification of spec claims

Shallow embedding of the disk-management control plane
(`platform_disk_api`): the disk service (`service.py`), the HTTP create
handler (`api.py`), the PVC/Pod mutating admission webhook
(`admission_controller/api.py`), the storage-quantity parser
(`utils.py` / `kube_client.py`) and the lifespan sweep
(`usage_watcher.py`).

Conventions:
* Python dicts of labels / annotations are association lists
  `List (String × String)`; insertion order is kept, updates are in place.
* Timestamps and durations are either kept as the raw annotation strings
  (where the code only copies them around) or as integer seconds (where
  the code compares them, in the lifespan sweep).
* Fallible code returns `Except`; kube API interactions are explicit
  state passing over a `KubeState` plus, where the order of calls
  matters, a trace of issued `KubeOp`s.
-/

/-! ## Association-list helpers (Python `dict` model) -/

/-- Python `d.get(key)` on an ordered string dict. -/
def lookupKV : List (String × String) → String → Option String
  | [], _ => none
  | (k, v) :: rest, key => if k = key then some v else lookupKV rest key

/-- Python `d[key] = v` on an ordered string dict: replace in place, else append. -/
def upsertKV : List (String × String) → String → String → List (String × String)
  | [], key, v => [(key, v)]
  | (k, w) :: rest, key, v =>
    if k = key then (k, v) :: rest else (k, w) :: upsertKV rest key v

/-! ## Username mangling (`service.py`)

`Service._request_to_pvc` stores `username.replace("/", "--")` in the
user labels; `Service._pvc_to_disk` recovers the owner with
`.replace("--", "/")`.  Python `str.replace` scans left to right and
replaces non-overlapping occurrences, which the two recursions below
reproduce. -/

/-- Source `username.replace("/", "--")` (`service.py:149`). -/
def encodeUserChars : List Char → List Char
  | [] => []
  | c :: rest => if c = '/' then '-' :: '-' :: encodeUserChars rest else c :: encodeUserChars rest

/-- Source `value.replace("--", "/")` (`service.py:224-226`). -/
def decodeUserChars : List Char → List Char
  | [] => []
  | [c] => [c]
  | c1 :: c2 :: rest =>
    if c1 = '-' ∧ c2 = '-' then '/' :: decodeUserChars rest
    else c1 :: decodeUserChars (c2 :: rest)

def encodeUsername (s : String) : String := String.mk (encodeUserChars s.data)

def decodeUsername (s : String) : String := String.mk (decodeUserChars s.data)

/-- Does the character list contain a dash immediately followed by a dash? -/
def hasDashDash : List Char → Bool
  | [] => false
  | [_] => false
  | c1 :: c2 :: rest => (c1 == '-' && c2 == '-') || hasDashDash (c2 :: rest)

/-- Does the character list contain a dash immediately followed by a slash? -/
def hasDashSlash : List Char → Bool
  | [] => false
  | [_] => false
  | c1 :: c2 :: rest => (c1 == '-' && c2 == '/') || hasDashSlash (c2 :: rest)

/-! ## Storage-quantity parsing (`utils.py:40-49`, `kube_client.py:49-72`)

`_storage_str_to_int` first tries `int(float(storage))` and, on
`ValueError`, walks `SUFFIX_TO_FACTOR` in insertion order, returning
`factor * int(prefix)` for the first suffix that matches.  Python's
`float` is modelled as exact parsing of a finite decimal/scientific
literal (optional sign, digits with optional fraction, optional
exponent) followed by truncation toward zero; `int(str)` as an optional
sign followed by digits.  (`inf`/`nan`, digit-group underscores and
float rounding above 2^53 are outside the inputs this code receives.) -/

/-- Suffix table of `utils.SUFFIX_TO_FACTOR`, in Python dict insertion order. -/
def SUFFIX_TO_FACTOR : List (String × Int) :=
  [("E", 10 ^ 18), ("P", 10 ^ 15), ("T", 10 ^ 12), ("G", 10 ^ 9), ("M", 10 ^ 6),
   ("k", 10 ^ 3), ("Ei", 1024 ^ 6), ("Pi", 1024 ^ 5), ("Ti", 1024 ^ 4),
   ("Gi", 1024 ^ 3), ("Mi", 1024 ^ 2), ("Ki", 1024)]

def digitsToNat (ds : List Char) : Nat :=
  ds.foldl (fun n c => n * 10 + (c.toNat - '0'.toNat)) 0

def stripChars (cs : List Char) : List Char :=
  ((cs.dropWhile Char.isWhitespace).reverse.dropWhile Char.isWhitespace).reverse

/-- Exponent part after the `e`: optional sign, at least one digit. -/
def parseExpChars (cs : List Char) : Option (Int × List Char) :=
  match cs with
  | '+' :: rest =>
    let ds := rest.takeWhile Char.isDigit
    if ds.isEmpty then none else some ((digitsToNat ds : Int), rest.dropWhile Char.isDigit)
  | '-' :: rest =>
    let ds := rest.takeWhile Char.isDigit
    if ds.isEmpty then none else some (-(digitsToNat ds : Int), rest.dropWhile Char.isDigit)
  | rest =>
    let ds := rest.takeWhile Char.isDigit
    if ds.isEmpty then none else some ((digitsToNat ds : Int), rest.dropWhile Char.isDigit)

/-- Python `int(float(s))` on a finite numeric literal, `none` on `ValueError`. -/
def pyFloatTruncInt (cs0 : List Char) : Option Int :=
  let stripped := stripChars cs0
  let signedTail : Int × List Char :=
    match stripped with
    | '+' :: rest => (1, rest)
    | '-' :: rest => (-1, rest)
    | rest => (1, rest)
  let sign := signedTail.1
  let cs1 := signedTail.2
  let intDigits := cs1.takeWhile Char.isDigit
  let cs2 := cs1.dropWhile Char.isDigit
  let fracTail : List Char × List Char :=
    match cs2 with
    | '.' :: rest => (rest.takeWhile Char.isDigit, rest.dropWhile Char.isDigit)
    | rest => ([], rest)
  let fracDigits := fracTail.1
  let cs3 := fracTail.2
  if intDigits.isEmpty && fracDigits.isEmpty then none
  else
    let expRes : Option (Int × List Char) :=
      match cs3 with
      | 'e' :: rest => parseExpChars rest
      | 'E' :: rest => parseExpChars rest
      | rest => some (0, rest)
    match expRes with
    | none => none
    | some (e, cs4) =>
      if cs4.isEmpty then
        let m : Nat := digitsToNat (intDigits ++ fracDigits)
        let scale : Nat := 10 ^ fracDigits.length
        let mag : Nat :=
          if 0 ≤ e then m * 10 ^ e.toNat / scale else m / (scale * 10 ^ (-e).toNat)
        some (sign * (mag : Int))
      else none

/-- Python `int(s)` on a decimal string, `none` on `ValueError`. -/
def pyIntChars (cs0 : List Char) : Option Int :=
  let stripped := stripChars cs0
  let signedTail : Int × List Char :=
    match stripped with
    | '+' :: rest => (1, rest)
    | '-' :: rest => (-1, rest)
    | rest => (1, rest)
  let ds := signedTail.2
  if ds.isEmpty || !ds.all Char.isDigit then none
  else some (signedTail.1 * (digitsToNat ds : Int))

def endsWithChars (cs suffix : List Char) : Bool :=
  if suffix.length ≤ cs.length then cs.drop (cs.length - suffix.length) == suffix
  else false

/-- The `for suffix, factor in SUFFIX_TO_FACTOR.items()` loop of
`_storage_str_to_int`: first matching suffix wins; an unparsable prefix
propagates the `ValueError` (`none`). -/
def storageSuffixLoop (cs : List Char) : List (String × Int) → Option Int
  | [] => none
  | (suffix, factor) :: rest =>
    if endsWithChars cs suffix.data then
      match pyIntChars (cs.take (cs.length - suffix.data.length)) with
      | some v => some (factor * v)
      | none => none
    else storageSuffixLoop cs rest

/-- Source `utils._storage_str_to_int` (identical copy in `kube_client.py`). -/
def storageStrToInt (s : String) : Option Int :=
  match pyFloatTruncInt s.data with
  | some v => some v
  | none => storageSuffixLoop s.data SUFFIX_TO_FACTOR

/-! ## Label and annotation keys (`service.py:56-78`)

Names ending in a reserved suffix are abbreviated with `_ANN`. -/

def DISK_API_ORG_LABEL : String := "platform.neuromation.io/disk-api-org-name"
def APOLO_ORG_LABEL : String := "platform.apolo.us/org"
def DISK_API_PROJECT_LABEL : String := "platform.neuromation.io/project"
def APOLO_PROJECT_LABEL : String := "platform.apolo.us/project"
def USER_LABEL : String := "platform.neuromation.io/user"
def APOLO_USER_LABEL : String := "platform.apolo.us/user"
def DISK_API_MARK_LABEL : String := "platform.neuromation.io/disk-api-pvc"
def APOLO_DISK_API_MARK_LABEL : String := "platform.apolo.us/disk"
def DISK_API_DELETED_LABEL : String := "platform.neuromation.io/disk-api-pvc-deleted"
def APOLO_DISK_API_DELETED_LABEL : String := "platform.apolo.us/disk-deleted"
def DISK_API_NAME_ANN : String := "platform.neuromation.io/disk-api-pvc-name"
def APOLO_DISK_API_NAME_ANN : String := "platform.apolo.us/disk-name"
def DISK_API_CREATED_AT_ANN : String := "platform.neuromation.io/disk-api-pvc-created-at"
def APOLO_DISK_API_CREATED_AT_ANN : String := "platform.apolo.us/disk-creation-date"
def DISK_API_LAST_USAGE_ANN : String := "platform.neuromation.io/disk-api-pvc-last-usage"
def APOLO_DISK_API_LAST_USAGE_ANN : String := "platform.apolo.us/disk-last-usage-date"
def DISK_API_LIFE_SPAN_ANN : String := "platform.neuromation.io/disk-api-pvc-life-span"
def APOLO_DISK_API_LIFE_SPAN_ANN : String := "platform.apolo.us/disk-life-span"
def DISK_API_USED_BYTES_ANN : String := "platform.neuromation.io/disk-api-used-bytes"
def APOLO_DISK_API_USED_BYTES_ANN : String := "platform.apolo.us/disk-bytes-used"
def VCLUSTER_OBJECT_NAME_ANN : String := "vcluster.loft.sh/object-name"

/-! ## Data model -/

/-- Source `service.DiskRequest`; `life_span` in whole seconds. -/
structure DiskRequest where
  storage : Int
  org_name : String
  project_name : String
  life_span : Option Int := none
  name : Option String := none
deriving DecidableEq

/-- A `V1PersistentVolumeClaim` as the service and webhook see it.
`metaHasLabels` / `metaHasAnnotations` record whether the corresponding
key is present in `metadata` at all (the webhook patches `{}` in when it
is not). -/
structure PvcObject where
  name : String
  metaHasLabels : Bool := true
  metaHasAnnotations : Bool := true
  labels : List (String × String) := []
  annotations : List (String × String) := []
  storageClassName : Option String := none
  statusPhase : Option String := none
  statusCapacityStorage : Option String := none
  specRequestsStorage : Option String := none
deriving DecidableEq

/-- A real PVC object carries labels/annotations content only when the
corresponding `metadata` key exists. -/
def PvcObject.wellFormed (pvc : PvcObject) : Prop :=
  (pvc.metaHasLabels = false → pvc.labels = []) ∧
  (pvc.metaHasAnnotations = false → pvc.annotations = [])

inductive DiskStatus where
  | pending
  | ready
  | broken
deriving DecidableEq

/-- Source `service.Disk`.  Timestamps/durations are kept as the raw dumped
annotation strings (`datetime_load` / `timedelta_load` are injective on
the dumps, so nothing is lost); `created_at` is `none` exactly when the
Python object holds `None`. -/
structure Disk where
  id : String
  storage : Int
  owner : String
  project_name : String
  name : Option String
  org_name : String
  status : DiskStatus
  created_at : Option String
  last_usage : Option String := none
  life_span : Option String := none
  used_bytes : Option String := none
deriving DecidableEq

/-- Source `service.DiskServiceError` hierarchy, plus `pyError` for Python-level
exceptions (`ValueError`, `KeyError`, failed `assert`) that are not
`DiskServiceError`s. -/
inductive DiskServiceErr where
  | serviceError (msg : String)
  | diskNotFound
  | diskConflict
  | diskNameUsed
  | diskAlreadyInUse
  | pyError (msg : String)
deriving DecidableEq

/-- Source `kube_client.KubeClientException` hierarchy. -/
inductive KubeClientErr where
  | resourceNotFound
  | resourceExists
  | resourceGone
  | resourceInvalid
  | resourceBadRequest
  | otherKubeErr (msg : String)
deriving DecidableEq

/-- The `DiskNaming` custom resource (`kube_client.DiskNaming`), with the
namespace it lives in. -/
structure NamingRec where
  namespc : String
  name : String
  disk_id : String
deriving DecidableEq

def lookupNaming : List NamingRec → String → String → Option String
  | [], _, _ => none
  | r :: rest, ns, nm =>
    if r.namespc = ns ∧ r.name = nm then some r.disk_id else lookupNaming rest ns nm

def removeNaming (l : List NamingRec) (ns nm : String) : List NamingRec :=
  l.filter (fun r => !(r.namespc == ns && r.name == nm))

/-- Cluster state: PVCs tagged with their namespace, plus DiskNamings. -/
structure KubeState where
  pvcs : List (String × PvcObject) := []
  namings : List NamingRec := []
deriving DecidableEq

def lookupPvc : List (String × PvcObject) → String → String → Option PvcObject
  | [], _, _ => none
  | (ns', p) :: rest, ns, nm =>
    if ns' = ns ∧ p.name = nm then some p else lookupPvc rest ns nm

def removePvcFrom (l : List (String × PvcObject)) (ns nm : String) : List (String × PvcObject) :=
  l.filter (fun e => !(e.1 == ns && e.2.name == nm))

def updatePvcIn (l : List (String × PvcObject)) (ns nm : String) (f : PvcObject → PvcObject) :
    List (String × PvcObject) :=
  l.map (fun e => if e.1 = ns ∧ e.2.name = nm then (e.1, f e.2) else e)

/-- Python `a or b` on two optional strings (empty string is falsy). -/
def pyOrStr (a b : Option String) : Option String :=
  match a with
  | some v => if v = "" then b else some v
  | none => b

/-- Source `Service.get_disk_naming_name` (`service.py:124-131`). -/
def getDiskNamingName (name org_name project_name : String) : String :=
  name ++ "--" ++ org_name ++ "--" ++ project_name

/-! ## `Service._request_to_pvc` (`service.py:133-175`) -/

/-- The `life_span` annotations of `_request_to_pvc`: written only when
the request's `life_span` is truthy (non-`None` and non-zero). -/
def lifeSpanAnns (life_span : Option Int) : List (String × String) :=
  match life_span with
  | some ls =>
    if ls ≠ 0 then
      [(DISK_API_LIFE_SPAN_ANN, toString ls), (APOLO_DISK_API_LIFE_SPAN_ANN, toString ls)]
    else []
  | none => []

/-- The `name` annotations of `_request_to_pvc`: written only when the
request's `name` is truthy (non-`None` and non-empty). -/
def nameAnns (nm : Option String) : List (String × String) :=
  match nm with
  | some n => if n ≠ "" then [(DISK_API_NAME_ANN, n), (APOLO_DISK_API_NAME_ANN, n)] else []
  | none => []

/-- The annotation dict built by `_request_to_pvc`: `created_at` always,
`life_span` / `name` only when truthy. -/
def requestAnns (request : DiskRequest) (now : String) : List (String × String) :=
  [(DISK_API_CREATED_AT_ANN, now), (APOLO_DISK_API_CREATED_AT_ANN, now)]
  ++ lifeSpanAnns request.life_span
  ++ nameAnns request.name

/-- The label dict built by `_request_to_pvc`. -/
def requestLabels (request : DiskRequest) (username : String) : List (String × String) :=
  [(USER_LABEL, encodeUsername username), (APOLO_USER_LABEL, encodeUsername username),
   (DISK_API_MARK_LABEL, "true"), (APOLO_DISK_API_MARK_LABEL, "true"),
   (DISK_API_ORG_LABEL, request.org_name), (APOLO_ORG_LABEL, request.org_name),
   (DISK_API_PROJECT_LABEL, request.project_name), (APOLO_PROJECT_LABEL, request.project_name)]

/-- Source `Service._request_to_pvc`: the PVC submitted to the cluster.
`pvcName` stands for the generated `disk-<uuid4>` name and `now` for the
dumped current time. -/
def requestToPvc (request : DiskRequest) (username : String) (now pvcName : String)
    (storage_class_name : String) : PvcObject :=
  { name := pvcName
    metaHasLabels := true
    metaHasAnnotations := true
    labels := requestLabels request username
    annotations := requestAnns request now
    storageClassName := if storage_class_name = "" then none else some storage_class_name
    statusPhase := none
    statusCapacityStorage := none
    specRequestsStorage := some (toString request.storage) }

/-! ## `Service._pvc_to_disk` (`service.py:193-281`) -/

def statusOfPhase (phase : String) : Option DiskStatus :=
  if phase = "Pending" then some .pending
  else if phase = "Bound" then some .ready
  else if phase = "Lost" then some .broken
  else none

/-- Source `Service._pvc_to_disk`.  Note: when both `created_at` annotations are
absent, the resulting Disk's `created_at` is `none` — the code passes the
missing value through (`service.py:250-256,277`). -/
def pvcToDisk (pvc : PvcObject) : Except DiskServiceErr Disk :=
  let anns := pvc.annotations
  let lbls := pvc.labels
  let rawUser : String :=
    match lookupKV lbls APOLO_USER_LABEL with
    | some v => v
    | none => (lookupKV lbls USER_LABEL).getD ""
  let username := decodeUsername rawUser
  let last_usage :=
    match lookupKV anns APOLO_DISK_API_LAST_USAGE_ANN with
    | some v => some v
    | none => lookupKV anns DISK_API_LAST_USAGE_ANN
  let life_span :=
    match lookupKV anns APOLO_DISK_API_LIFE_SPAN_ANN with
    | some v => some v
    | none => lookupKV anns DISK_API_LIFE_SPAN_ANN
  let used_bytes :=
    match lookupKV anns APOLO_DISK_API_USED_BYTES_ANN with
    | some v => some v
    | none => lookupKV anns DISK_API_USED_BYTES_ANN
  let org_name : String :=
    match lookupKV lbls APOLO_ORG_LABEL with
    | some v => v
    | none => (lookupKV lbls DISK_API_ORG_LABEL).getD ""
  let project_name : String :=
    match lookupKV lbls APOLO_PROJECT_LABEL with
    | some v => v
    | none => (lookupKV lbls DISK_API_PROJECT_LABEL).getD username
  let disk_name :=
    match lookupKV anns APOLO_DISK_API_NAME_ANN with
    | some v => some v
    | none => lookupKV anns DISK_API_NAME_ANN
  let created_at :=
    match lookupKV anns APOLO_DISK_API_CREATED_AT_ANN with
    | some v => some v
    | none => lookupKV anns DISK_API_CREATED_AT_ANN
  match pyOrStr pvc.statusCapacityStorage pvc.specRequestsStorage with
  | none => .error (.serviceError "PVC has no storage info")
  | some storage_str =>
    match storageStrToInt storage_str with
    | none => .error (.pyError "ValueError")
    | some storage =>
      let disk_id := (lookupKV anns VCLUSTER_OBJECT_NAME_ANN).getD pvc.name
      match pvc.statusPhase with
      | none => .error (.pyError "assert pvc.status.phase is not None")
      | some phase =>
        match statusOfPhase phase with
        | none => .error (.pyError "KeyError")
        | some st =>
          .ok { id := disk_id
                storage := storage
                owner := username
                project_name := project_name
                name := disk_name
                org_name := org_name
                status := st
                created_at := created_at
                last_usage := last_usage
                life_span := life_span
                used_bytes := used_bytes }

/-! ## Admission webhook: PVC mutation (`admission_controller/api.py:347-488`)

The JSON Patch produced by `_handle_pvc` contains only `add` ops; each
op is modelled structurally (the RFC-6901 escaping lives in the path
string only). RFC-6902 `add` on an object member replaces the member
when it already exists. -/

inductive PatchOp where
  | ensureMetaLabels
  | ensureMetaAnns
  | addAnn (k v : String)
  | addLabel (k v : String)
  | setStorageClass (v : String)
deriving DecidableEq

/-- Apply one `add` op to the PVC object. -/
def applyPatch (pvc : PvcObject) : PatchOp → PvcObject
  | .ensureMetaLabels => { pvc with metaHasLabels := true, labels := [] }
  | .ensureMetaAnns => { pvc with metaHasAnnotations := true, annotations := [] }
  | .addAnn k v =>
    { pvc with metaHasAnnotations := true, annotations := upsertKV pvc.annotations k v }
  | .addLabel k v =>
    { pvc with metaHasLabels := true, labels := upsertKV pvc.labels k v }
  | .setStorageClass v => { pvc with storageClassName := some v }

def applyPatches (pvc : PvcObject) (ps : List PatchOp) : PvcObject :=
  ps.foldl applyPatch pvc

/-- Source `AdmissionControllerHandler._add_key_value_if_not_exist` for a
string-valued collection: emit the `add` op only when the key is absent
in the original collection. -/
def addKeyValueIfNotExist (coll : List (String × String)) (mk : String → String → PatchOp)
    (k v : String) : List PatchOp :=
  if (lookupKV coll k).isSome then [] else [mk k v]

/-- Source `re.search(RE_STATEFUL_SET_PVC_NAME_INDEX, pvc_name)`: the trailing
dash-plus-digits group of the PVC name, if any (with the dash). -/
def statefulSuffix (name : String) : Option String :=
  let rev := name.data.reverse
  let ds := rev.takeWhile Char.isDigit
  if ds.isEmpty then none
  else
    match rev.drop ds.length with
    | '-' :: _ => some (String.mk ('-' :: ds.reverse))
    | _ => none

/-- Source `AdmissionControllerHandler._create_disk_naming`
(`admission_controller/api.py:418-473`): returns the extra annotation
patches (StatefulSet index case) and the updated DiskNaming store, or
`DiskNameUsed` when the name is bound to a different PVC. -/
def createDiskNamingStep (namespc org project pvc_name : String)
    (anns : List (String × String)) (namings : List NamingRec) :
    Except DiskServiceErr (List PatchOp × List NamingRec) :=
  match pyOrStr (lookupKV anns APOLO_DISK_API_NAME_ANN) (lookupKV anns DISK_API_NAME_ANN) with
  | none => .ok ([], namings)
  | some dn =>
    if dn = "" then .ok ([], namings)
    else
      let suffixed : String × List PatchOp :=
        match statefulSuffix pvc_name with
        | some idx =>
          (dn ++ idx,
           [.addAnn APOLO_DISK_API_NAME_ANN (dn ++ idx), .addAnn DISK_API_NAME_ANN (dn ++ idx)])
        | none => (dn, [])
      let namingName := getDiskNamingName suffixed.1 org project
      match lookupNaming namings namespc namingName with
      | none => .ok (suffixed.2, namings ++ [⟨namespc, namingName, pvc_name⟩])
      | some existing_id =>
        if existing_id ≠ pvc_name then .error .diskNameUsed
        else .ok (suffixed.2, namings)

/-- Source `AdmissionControllerHandler._handle_pvc`
(`admission_controller/api.py:347-416`): the accumulated patch list and
the updated DiskNaming store, or the raised domain error. -/
def handlePvc (pvc : PvcObject) (now : String) (namespc namespace_org namespace_project : String)
    (storage_class : String) (namings : List NamingRec) :
    Except DiskServiceErr (List PatchOp × List NamingRec) :=
  let metaPatches :=
    (if pvc.metaHasLabels then [] else [PatchOp.ensureMetaLabels])
    ++ (if pvc.metaHasAnnotations then [] else [PatchOp.ensureMetaAnns])
  let annPatches :=
    addKeyValueIfNotExist pvc.annotations PatchOp.addAnn APOLO_DISK_API_CREATED_AT_ANN now
    ++ addKeyValueIfNotExist pvc.annotations PatchOp.addAnn DISK_API_CREATED_AT_ANN now
  let labelPatches :=
    addKeyValueIfNotExist pvc.labels PatchOp.addLabel DISK_API_MARK_LABEL "true"
    ++ addKeyValueIfNotExist pvc.labels PatchOp.addLabel APOLO_DISK_API_MARK_LABEL "true"
    ++ addKeyValueIfNotExist pvc.labels PatchOp.addLabel DISK_API_ORG_LABEL namespace_org
    ++ addKeyValueIfNotExist pvc.labels PatchOp.addLabel APOLO_ORG_LABEL namespace_org
    ++ addKeyValueIfNotExist pvc.labels PatchOp.addLabel DISK_API_PROJECT_LABEL namespace_project
    ++ addKeyValueIfNotExist pvc.labels PatchOp.addLabel APOLO_PROJECT_LABEL namespace_project
    ++ addKeyValueIfNotExist pvc.labels PatchOp.addLabel APOLO_USER_LABEL namespace_project
    ++ addKeyValueIfNotExist pvc.labels PatchOp.addLabel USER_LABEL namespace_project
  match createDiskNamingStep namespc namespace_org namespace_project pvc.name
      pvc.annotations namings with
  | .error e => .error e
  | .ok (namePatches, namings2) =>
    .ok (metaPatches ++ annPatches ++ labelPatches ++ namePatches
         ++ [.setStorageClass storage_class], namings2)

/-! ## `Service.create_disk` (`service.py:283-295`) composed with PVC admission

`create_disk` itself only submits the PVC built by `_request_to_pvc`;
the cluster routes that submission through the mutating webhook
(`_handle_pvc`) before the PVC is persisted, so the DiskNaming
create/conflict happens before the PVC exists.  A webhook decline
surfaces to the caller as the raised domain error.  `pvcName` stands for
the freshly generated `disk-<uuid4>` name. -/

def createDisk (st : KubeState) (request : DiskRequest) (username : String)
    (now pvcName storage_class_name : String)
    (namespc admission_now admission_storage_class namespace_org namespace_project : String) :
    Except DiskServiceErr PvcObject × KubeState :=
  let pvc0 := requestToPvc request username now pvcName storage_class_name
  match handlePvc pvc0 admission_now namespc namespace_org namespace_project
      admission_storage_class st.namings with
  | .error e => (.error e, st)
  | .ok (patches, namings2) =>
    let pvc1 := applyPatches pvc0 patches
    (.ok pvc1, { pvcs := st.pvcs ++ [(namespc, pvc1)], namings := namings2 })

/-! ## `Service.remove_disk` (`service.py:367-408`)

The trace records the kube API calls in the order they are issued:
DiskNaming delete (when the disk has a name; an absent naming is
swallowed), then the deleted-mark label patch, then the PVC delete.  A
`ResourceNotFound` from the patch (PVC already gone) aborts before the
delete and is rethrown as `DiskNotFound`. -/

inductive KubeOp where
  | deleteDiskNaming (namespc nm : String)
  | patchPvcLabels (namespc id : String) (lbls : List (String × String))
  | deletePvc (namespc id : String)
deriving DecidableEq

def addLabels (pvc : PvcObject) (lbls : List (String × String)) : PvcObject :=
  { pvc with labels := lbls.foldl (fun acc kv => upsertKV acc kv.1 kv.2) pvc.labels }

def deletedMarkLabels : List (String × String) :=
  [(DISK_API_DELETED_LABEL, "true"), (APOLO_DISK_API_DELETED_LABEL, "true")]

def removeDisk (st : KubeState) (namespc : String) (disk : Disk) :
    Except DiskServiceErr Unit × KubeState × List KubeOp :=
  let step1 : List NamingRec × List KubeOp :=
    match disk.name with
    | some n =>
      if n ≠ "" then
        let nm := getDiskNamingName n disk.org_name disk.project_name
        (removeNaming st.namings namespc nm, [.deleteDiskNaming namespc nm])
      else (st.namings, [])
    | none => (st.namings, [])
  match lookupPvc st.pvcs namespc disk.id with
  | none =>
    (.error .diskNotFound, { st with namings := step1.1 },
     step1.2 ++ [.patchPvcLabels namespc disk.id deletedMarkLabels])
  | some _ =>
    (.ok (),
     { namings := step1.1,
       pvcs := removePvcFrom
         (updatePvcIn st.pvcs namespc disk.id (fun p => addLabels p deletedMarkLabels))
         namespc disk.id },
     step1.2 ++ [.patchPvcLabels namespc disk.id deletedMarkLabels,
                 .deletePvc namespc disk.id])

/-! ## `Service.get_project_disks` (`service.py:329-352`)

The underlying `persistent_volume_claim.get_list` call is external; the
model takes its outcome.  Any `KubeClientException` yields the empty
list; a successful list is translated PVC by PVC. -/

def disksFromPvcList : List PvcObject → Except DiskServiceErr (List Disk)
  | [] => .ok []
  | p :: rest =>
    match pvcToDisk p with
    | .error e => .error e
    | .ok d =>
      match disksFromPvcList rest with
      | .error e => .error e
      | .ok ds => .ok (d :: ds)

def getProjectDisks (listResult : Except KubeClientErr (List PvcObject)) :
    Except DiskServiceErr (List Disk) :=
  match listResult with
  | .error _ => .ok []
  | .ok pvcs => disksFromPvcList pvcs

/-! ## Create-time quota check (`api.py:162-234`) -/

/-- Source `DiskApiHandler._get_project_used_storage`: sum of `d.storage` over
the project's live disks. -/
def getProjectUsedStorage (disks : List Disk) : Int :=
  (disks.map (fun d => d.storage)).sum

inductive CreateDiskHttpResponse where
  | overLimit (status : Nat) (code : String)
  | created (disk : Disk)
deriving DecidableEq

/-- The quota gate of `DiskApiHandler.handle_create_disk`
(`api.py:219-234`): reject with HTTP 403 / `over_limit` when the limit
is exceeded, otherwise create.  `new_disk` is the Disk the service
returns for the created PVC. -/
def handleCreateDisk (storage_limit_per_project : Int) (project_disks : List Disk)
    (request : DiskRequest) (new_disk : Disk) : CreateDiskHttpResponse × List Disk :=
  let project_used_storage := getProjectUsedStorage project_disks
  if storage_limit_per_project < project_used_storage + request.storage then
    (.overLimit 403 "over_limit", project_disks)
  else
    (.created new_disk, project_disks ++ [new_disk])

/-! ## Admission error surface (`admission_controller/api.py:72-78,506-533`) -/

/-- Source `ERROR_TO_HTTP_CODE`, keyed on `type(e)`. -/
def ERROR_TO_HTTP_CODE (e : DiskServiceErr) : Option Nat :=
  match e with
  | .serviceError _ => some 404
  | .diskNotFound => some 404
  | .diskConflict => some 409
  | .diskNameUsed => some 409
  | .diskAlreadyInUse => some 409
  | .pyError _ => none

/-- Is the exception an instance of `DiskServiceError` (so that the
first `except` clause of `handle_exceptions` catches it)? -/
def isDiskServiceError : DiskServiceErr → Bool
  | .pyError _ => false
  | _ => true

/-- The errors that can escape a handler into `handle_exceptions`:
domain errors, `AdmissionControllerApiError` with its raise-site status
(422 invalid injection spec, 403 metadata mismatch, 400 namespace labels
missing), or anything else. -/
inductive RaisedErr where
  | fromService (e : DiskServiceErr)
  | invalidInjectionSpec
  | metadataMismatch
  | namespaceLabelsMissing
  | unexpected (msg : String)
deriving DecidableEq

/-- Source `handle_exceptions` middleware: the `(allowed, status.code)` pair of
the declined admission response. -/
def handleExceptions (e : RaisedErr) : Bool × Nat :=
  match e with
  | .fromService se =>
    if isDiskServiceError se then (false, (ERROR_TO_HTTP_CODE se).getD 400)
    else (false, 400)
  | .invalidInjectionSpec => (false, 422)
  | .metadataMismatch => (false, 403)
  | .namespaceLabelsMissing => (false, 400)
  | .unexpected _ => (false, 400)

/-! ## Lifespan sweep (`usage_watcher.py:145-159`)

Times in integer seconds.  `disk.last_usage or disk.created_at` is
presence-based (datetimes are never falsy).  A disk with a `life_span`
but neither `last_usage` nor `created_at` makes the sweep body raise
(`None + timedelta`), which the surrounding `except` catches: the rest
of the list is not processed in that sweep (`completed = false`). -/

structure WatcherDisk where
  id : String
  created_at : Option Int := none
  last_usage : Option Int := none
  life_span : Option Int := none
deriving DecidableEq

def lifespanStart (d : WatcherDisk) : Option Int :=
  match d.last_usage with
  | some t => some t
  | none => d.created_at

def lifespanDecision (now : Int) (d : WatcherDisk) : Option Bool :=
  match d.life_span with
  | none => some false
  | some ls =>
    match lifespanStart d with
    | some start => some (decide (start + ls < now))
    | none => none

/-- One pass of `watch_lifespan_ended`: the ids passed to `remove_disk`,
in order, and whether the loop ran to completion. -/
def sweepLifespan (now : Int) : List WatcherDisk → List String × Bool
  | [] => ([], true)
  | d :: rest =>
    match lifespanDecision now d with
    | none => ([], false)
    | some true =>
      let r := sweepLifespan now rest
      (d.id :: r.1, r.2)
    | some false => sweepLifespan now rest

/-! ## Claim theorems -/

/-- Sample request used by the C2 witness. -/
def sampleRequest : DiskRequest :=
  { storage := 40, org_name := "acme", project_name := "web" }

/-- Sample created disk used by the C2 witness. -/
def sampleDisk : Disk :=
  { id := "disk-1", storage := 40, owner := "alice", project_name := "web",
    name := none, org_name := "acme", status := .pending, created_at := some "0" }

/-- A legacy PVC: bound, with requested storage, but carrying neither
`created_at` annotation. -/
def legacyPvc : PvcObject :=
  { name := "disk-legacy", statusPhase := some "Bound", specRequestsStorage := some "100" }

/-- The Disk `_pvc_to_disk` produces for `legacyPvc`. -/
def legacyDisk : Disk :=
  { id := "disk-legacy", storage := 100, owner := "", project_name := "",
    name := none, org_name := "", status := .ready, created_at := none }

/-- State for the C4 witness: one PVC and its naming. -/
def sampleRemoveState : KubeState :=
  { pvcs := [("ns1", { name := "disk-2" })],
    namings := [⟨"ns1", "db--acme--web", "disk-2"⟩] }

/-- PVC looked up by the C4 witness. -/
def sampleRemovePvc : PvcObject := { name := "disk-2" }

/-- Disk removed by the C4 witness. -/
def sampleRemoveDisk : Disk :=
  { id := "disk-2", storage := 1, owner := "alice", project_name := "web",
    name := some "db", org_name := "acme", status := .ready, created_at := some "0" }

/-- A named request: one byte in `acme`/`web` under the name `db`. -/
def namedRequest : DiskRequest :=
  { storage := 1, org_name := "acme", project_name := "web", name := some "db" }

/-- The empty cluster. -/
def emptyKube : KubeState := {}

/-! ## Admission re-invocation machinery (C3)

Field-wise effect functions for `applyPatches`, and the
"add each key only if absent in the original dict" chain that both the
annotation and label passes of `_handle_pvc` follow. -/

def annEffect (anns : List (String × String)) : PatchOp → List (String × String)
  | .ensureMetaAnns => []
  | .addAnn k v => upsertKV anns k v
  | _ => anns

def labelEffect (lbls : List (String × String)) : PatchOp → List (String × String)
  | .ensureMetaLabels => []
  | .addLabel k v => upsertKV lbls k v
  | _ => lbls

def metaLabelsEffect (b : Bool) : PatchOp → Bool
  | .ensureMetaLabels => true
  | .addLabel _ _ => true
  | _ => b

def metaAnnsEffect (b : Bool) : PatchOp → Bool
  | .ensureMetaAnns => true
  | .addAnn _ _ => true
  | _ => b

def scEffect (o : Option String) : PatchOp → Option String
  | .setStorageClass v => some v
  | _ => o

/-- One "patch key only if absent in the original collection" step. -/
def addIfAbsentPair (orig s : List (String × String)) (k v : String) :
    List (String × String) :=
  if (lookupKV orig k).isSome then s else upsertKV s k v

/-- The whole add-if-absent pass over a spec list. -/
def addIfAbsentChain (orig : List (String × String)) :
    List (String × String) → List (String × String) → List (String × String)
  | [], s => s
  | kv :: rest, s => addIfAbsentChain orig rest (addIfAbsentPair orig s kv.1 kv.2)

/-- The label table `_handle_pvc` stamps, in source order. -/
def pvcLabelSpecs (norg nproj : String) : List (String × String) :=
  [(DISK_API_MARK_LABEL, "true"), (APOLO_DISK_API_MARK_LABEL, "true"),
   (DISK_API_ORG_LABEL, norg), (APOLO_ORG_LABEL, norg),
   (DISK_API_PROJECT_LABEL, nproj), (APOLO_PROJECT_LABEL, nproj),
   (APOLO_USER_LABEL, nproj), (USER_LABEL, nproj)]

/-- The annotation table `_handle_pvc` stamps, in source order. -/
def pvcAnnSpecs (now : String) : List (String × String) :=
  [(APOLO_DISK_API_CREATED_AT_ANN, now), (DISK_API_CREATED_AT_ANN, now)]

/-- The patch list a successful `_handle_pvc` run produces, written out
(`np` is the naming step's contribution, `[]` whenever the PVC name has
no StatefulSet index). -/
def run1Patches (pvc : PvcObject) (now norg nproj sc : String) (np : List PatchOp) :
    List PatchOp :=
  ((if pvc.metaHasLabels then [] else [PatchOp.ensureMetaLabels])
      ++ (if pvc.metaHasAnnotations then [] else [PatchOp.ensureMetaAnns]))
  ++ (addKeyValueIfNotExist pvc.annotations PatchOp.addAnn APOLO_DISK_API_CREATED_AT_ANN now
      ++ addKeyValueIfNotExist pvc.annotations PatchOp.addAnn DISK_API_CREATED_AT_ANN now)
  ++ (addKeyValueIfNotExist pvc.labels PatchOp.addLabel DISK_API_MARK_LABEL "true"
      ++ addKeyValueIfNotExist pvc.labels PatchOp.addLabel APOLO_DISK_API_MARK_LABEL "true"
      ++ addKeyValueIfNotExist pvc.labels PatchOp.addLabel DISK_API_ORG_LABEL norg
      ++ addKeyValueIfNotExist pvc.labels PatchOp.addLabel APOLO_ORG_LABEL norg
      ++ addKeyValueIfNotExist pvc.labels PatchOp.addLabel DISK_API_PROJECT_LABEL nproj
      ++ addKeyValueIfNotExist pvc.labels PatchOp.addLabel APOLO_PROJECT_LABEL nproj
      ++ addKeyValueIfNotExist pvc.labels PatchOp.addLabel APOLO_USER_LABEL nproj
      ++ addKeyValueIfNotExist pvc.labels PatchOp.addLabel USER_LABEL nproj)
  ++ np ++ [PatchOp.setStorageClass sc]

/-- A bare PVC admission request: no metadata labels/annotations at all. -/
def cxPvc : PvcObject :=
  { name := "pvc-x", metaHasLabels := false, metaHasAnnotations := false }

/-- The patch list the webhook produces for `cxPvc`. -/
def cxRun1Patches : List PatchOp :=
  [.ensureMetaLabels, .ensureMetaAnns,
   .addAnn APOLO_DISK_API_CREATED_AT_ANN "t1", .addAnn DISK_API_CREATED_AT_ANN "t1",
   .addLabel DISK_API_MARK_LABEL "true", .addLabel APOLO_DISK_API_MARK_LABEL "true",
   .addLabel DISK_API_ORG_LABEL "acme", .addLabel APOLO_ORG_LABEL "acme",
   .addLabel DISK_API_PROJECT_LABEL "web", .addLabel APOLO_PROJECT_LABEL "web",
   .addLabel APOLO_USER_LABEL "web", .addLabel USER_LABEL "web",
   .setStorageClass "standard"]

@[simp] theorem lookupKV_nil (key : String) : lookupKV [] key = none := rfl

@[simp] theorem lookupKV_cons (k v key : String) (rest : List (String × String)) :
    lookupKV ((k, v) :: rest) key = if k = key then some v else lookupKV rest key := rfl

theorem lookupKV_upsertKV (l : List (String × String)) (k v key : String) :
    lookupKV (upsertKV l k v) key = if k = key then some v else lookupKV l key := by
  induction l with
  | nil => by_cases h : k = key <;> simp [upsertKV, h]
  | cons p rest ih =>
    obtain ⟨k', w⟩ := p
    by_cases h1 : k' = k
    · subst h1
      by_cases h2 : k' = key <;> simp [upsertKV, lookupKV_cons, h2]
    · simp only [upsertKV, if_neg h1, lookupKV_cons, ih]
      by_cases h2 : k' = key
      · subst h2
        have hk : ¬k = k' := fun hh => h1 hh.symm
        simp [if_pos rfl, if_neg hk]
      · simp [if_neg h2]

theorem hasDashDash_cons_false {c : Char} {rest : List Char}
    (h : hasDashDash (c :: rest) = false) : hasDashDash rest = false := by
  cases rest with
  | nil => rfl
  | cons c2 r =>
    simp only [hasDashDash, Bool.or_eq_false_iff] at h
    exact h.2

theorem hasDashSlash_cons_false {c : Char} {rest : List Char}
    (h : hasDashSlash (c :: rest) = false) : hasDashSlash rest = false := by
  cases rest with
  | nil => rfl
  | cons c2 r =>
    simp only [hasDashSlash, Bool.or_eq_false_iff] at h
    exact h.2

theorem encodeUserChars_slash (rest : List Char) :
    encodeUserChars ('/' :: rest) = '-' :: '-' :: encodeUserChars rest := by
  simp [encodeUserChars]

theorem encodeUserChars_cons_ne (c : Char) (rest : List Char) (h : c ≠ '/') :
    encodeUserChars (c :: rest) = c :: encodeUserChars rest := by
  simp [encodeUserChars, h]

theorem decodeUserChars_dashdash (l : List Char) :
    decodeUserChars ('-' :: '-' :: l) = '/' :: decodeUserChars l := by
  simp [decodeUserChars]

theorem decodeUserChars_cons_ne (c : Char) (l : List Char) (h : c ≠ '-') :
    decodeUserChars (c :: l) = c :: decodeUserChars l := by
  cases l with
  | nil => rfl
  | cons c2 r =>
    have hh : ¬(c = '-' ∧ c2 = '-') := fun hh => h hh.1
    simp [decodeUserChars, hh]

theorem decodeUserChars_dash_cons (c2 : Char) (l : List Char) (h : c2 ≠ '-') :
    decodeUserChars ('-' :: c2 :: l) = '-' :: decodeUserChars (c2 :: l) := by
  simp [decodeUserChars, h]

/-- Round trip of the owner mangling: if the username contains neither a
double dash nor a dash-slash pair, decoding the encoding gives the
username back. -/
theorem decode_encode_user (u : List Char)
    (h1 : hasDashDash u = false) (h2 : hasDashSlash u = false) :
    decodeUserChars (encodeUserChars u) = u := by
  induction u with
  | nil => rfl
  | cons c rest ih =>
    have hr1 : hasDashDash rest = false := hasDashDash_cons_false h1
    have hr2 : hasDashSlash rest = false := hasDashSlash_cons_false h2
    by_cases hc : c = '/'
    · subst hc
      rw [encodeUserChars_slash, decodeUserChars_dashdash, ih hr1 hr2]
    · rw [encodeUserChars_cons_ne c rest hc]
      by_cases hd : c = '-'
      · subst hd
        cases rest with
        | nil => rfl
        | cons c2 r =>
          have hc2d : c2 ≠ '-' := by
            simp only [hasDashDash, Bool.or_eq_false_iff, Bool.and_eq_false_iff] at h1
            rcases h1.1 with h | h
            · simp at h
            · intro hh; rw [hh] at h; simp at h
          have hc2s : c2 ≠ '/' := by
            simp only [hasDashSlash, Bool.or_eq_false_iff, Bool.and_eq_false_iff] at h2
            rcases h2.1 with h | h
            · simp at h
            · intro hh; rw [hh] at h; simp at h
          rw [encodeUserChars_cons_ne c2 r hc2s, decodeUserChars_dash_cons c2 _ hc2d,
            ← encodeUserChars_cons_ne c2 r hc2s, ih hr1 hr2]
      · rw [decodeUserChars_cons_ne c _ hd, ih hr1 hr2]

/-- C8: the storage-quantity parser maps each of the fourteen spec
strings to its expected byte count — bare integers and exponential
notation as written, binary suffixes as powers of 1024, decimal suffixes
as powers of 1000. -/
theorem storage_parse_table :
    storageStrToInt "100" = some 100 ∧
    storageStrToInt "1e2" = some 100 ∧
    storageStrToInt "1Ki" = some 1024 ∧
    storageStrToInt "13Mi" = some 13631488 ∧
    storageStrToInt "22Gi" = some 23622320128 ∧
    storageStrToInt "33Ti" = some 36283883716608 ∧
    storageStrToInt "44Pi" = some 49539595901075456 ∧
    storageStrToInt "55Ei" = some 63410682753376583680 ∧
    storageStrToInt "1k" = some 1000 ∧
    storageStrToInt "13M" = some 13000000 ∧
    storageStrToInt "22G" = some 22000000000 ∧
    storageStrToInt "33T" = some 33000000000000 ∧
    storageStrToInt "44P" = some 44000000000000000 ∧
    storageStrToInt "55E" = some 55000000000000000000 := by
  refine ⟨?_, ?_, ?_, ?_, ?_, ?_, ?_, ?_, ?_, ?_, ?_, ?_, ?_, ?_⟩ <;> decide

/-- C9: when the underlying PVC list call fails with any
`KubeClientException`, `get_project_disks` returns the empty list, and
the quota check summing the storages of that result observes zero
usage. -/
theorem getProjectDisks_swallows_kube_error (e : KubeClientErr) :
    getProjectDisks (Except.error e) = .ok [] ∧ getProjectUsedStorage [] = 0 :=
  ⟨rfl, rfl⟩

/-- C5 counterexample: a bare `DiskServiceError` (e.g. `"PVC has no
storage info"`) is declined with code 404, not 400 — `ERROR_TO_HTTP_CODE`
maps the base class to `HTTPNotFound`. -/
theorem handleExceptions_base_err_404 :
    handleExceptions (.fromService (.serviceError "PVC has no storage info")) = (false, 404) ∧
    ((false, 404) : Bool × Nat) ≠ (false, 400) := by
  refine ⟨rfl, ?_⟩
  decide

/-- C5 (amended): every failure is declined (`allowed = false`) with the
fixed code table — 404 for `DiskNotFound` *and for the base
`DiskServiceError`*, 409 for the conflict family, 422 for an invalid
injection spec, 403 for a metadata mismatch, 400 for everything else. -/
theorem handleExceptions_mapping (e : RaisedErr) :
    handleExceptions e =
      (false,
        match e with
        | .fromService (.serviceError _) => 404
        | .fromService .diskNotFound => 404
        | .fromService .diskConflict => 409
        | .fromService .diskNameUsed => 409
        | .fromService .diskAlreadyInUse => 409
        | .fromService (.pyError _) => 400
        | .invalidInjectionSpec => 422
        | .metadataMismatch => 403
        | .namespaceLabelsMissing => 400
        | .unexpected _ => 400) := by
  cases e with
  | fromService se => cases se <;> rfl
  | invalidInjectionSpec => rfl
  | metadataMismatch => rfl
  | namespaceLabelsMissing => rfl
  | unexpected _ => rfl

/-- C7: one sweep of `watch_lifespan_ended` calls `remove_disk` exactly
for the disks whose `life_span` is set and whose
`(last_usage ?? created_at) + life_span` lies before `now`; disks with
no `life_span` or an unexpired deadline are untouched.  The
well-formedness hypothesis (disks with a `life_span` carry a start
time) holds for every disk this system creates, since creation always
stamps `created_at`. -/
theorem sweepLifespan_exact (disks : List WatcherDisk) (now : Int)
    (hwf : ∀ d ∈ disks, d.life_span.isSome → (lifespanStart d).isSome) :
    sweepLifespan now disks =
      ((disks.filter (fun d =>
          match d.life_span, lifespanStart d with
          | some ls, some start => decide (start + ls < now)
          | _, _ => false)).map (fun d => d.id), true) := by
  induction disks with
  | nil => rfl
  | cons d rest ih =>
    have hrest : ∀ x ∈ rest, x.life_span.isSome → (lifespanStart x).isSome :=
      fun x hx => hwf x (List.mem_cons_of_mem _ hx)
    have ih2 := ih hrest
    cases hls : d.life_span with
    | none =>
      simp only [sweepLifespan, lifespanDecision, hls, ih2, List.filter_cons]
      simp
    | some ls =>
      cases hst : lifespanStart d with
      | none =>
        have := hwf d (List.mem_cons_self d rest)
        rw [hls, hst] at this
        simp at this
      | some start =>
        by_cases hlt : start + ls < now
        · simp only [sweepLifespan, lifespanDecision, hls, hst, ih2, List.filter_cons]
          simp [hlt]
        · simp only [sweepLifespan, lifespanDecision, hls, hst, ih2, List.filter_cons]
          simp [hlt]

/-- C7 witness: a three-disk sweep at `now = 100`: expired disk removed,
unexpired and no-lifespan disks kept. -/
theorem sweepLifespan_exact_witness :
    sweepLifespan 100
      [{ id := "disk-a", created_at := some 0, life_span := some 50 },
       { id := "disk-b", created_at := some 0, last_usage := some 90, life_span := some 50 },
       { id := "disk-c", created_at := some 0 }] = (["disk-a"], true) := by
  have h := sweepLifespan_exact
    [{ id := "disk-a", created_at := some 0, life_span := some 50 },
     { id := "disk-b", created_at := some 0, last_usage := some 90, life_span := some 50 },
     { id := "disk-c", created_at := some 0 }] 100 (by decide)
  rw [h]
  decide

/-- C2: `handle_create_disk` rejects with HTTP 403 / `over_limit` and
creates nothing when the project's used storage plus the requested
storage exceeds the limit, and otherwise creates the disk — so right
after a successful create the project's storage sum is still within the
limit. -/
theorem handleCreateDisk_quota (limit : Int) (project_disks : List Disk)
    (request : DiskRequest) (new_disk : Disk)
    (hstorage : new_disk.storage = request.storage) :
    (limit < getProjectUsedStorage project_disks + request.storage →
      handleCreateDisk limit project_disks request new_disk
        = (.overLimit 403 "over_limit", project_disks)) ∧
    (getProjectUsedStorage project_disks + request.storage ≤ limit →
      handleCreateDisk limit project_disks request new_disk
        = (.created new_disk, project_disks ++ [new_disk]) ∧
      getProjectUsedStorage (project_disks ++ [new_disk]) ≤ limit) := by
  constructor
  · intro h
    simp [handleCreateDisk, if_pos h]
  · intro h
    have hnot : ¬ limit < getProjectUsedStorage project_disks + request.storage :=
      not_lt.mpr h
    refine ⟨by simp [handleCreateDisk, if_neg hnot], ?_⟩
    have hsum : getProjectUsedStorage (project_disks ++ [new_disk])
        = getProjectUsedStorage project_disks + new_disk.storage := by
      simp [getProjectUsedStorage]
    rw [hsum, hstorage]
    exact h

/-- C2 witness: limit 100, empty project, request of 40 bytes: the disk
is created and the project sum stays within the limit. -/
theorem handleCreateDisk_quota_witness :
    handleCreateDisk 100 [] sampleRequest sampleDisk
      = (.created sampleDisk, [sampleDisk]) ∧
    getProjectUsedStorage [sampleDisk] ≤ 100 :=
  (handleCreateDisk_quota 100 [] sampleRequest sampleDisk rfl).2 (by decide)

/-- C6 counterexample: converting a PVC with neither `created_at`
annotation yields a Disk whose `created_at` is `None` — no back-fill
merge-patch happens (`_pvc_to_disk` issues no kube call at all). -/
theorem pvcToDisk_no_backfill_cx :
    lookupKV legacyPvc.annotations APOLO_DISK_API_CREATED_AT_ANN = none ∧
    lookupKV legacyPvc.annotations DISK_API_CREATED_AT_ANN = none ∧
    (pvcToDisk legacyPvc).map (fun d => d.created_at) = Except.ok none :=
  ⟨rfl, rfl, rfl⟩

/-- C6 (amended): when both `created_at` annotations are missing,
`_pvc_to_disk` returns the Disk with `created_at = None`; the service
performs no back-fill. -/
theorem pvcToDisk_missing_created_at (pvc : PvcObject) (d : Disk)
    (h1 : lookupKV pvc.annotations APOLO_DISK_API_CREATED_AT_ANN = none)
    (h2 : lookupKV pvc.annotations DISK_API_CREATED_AT_ANN = none)
    (hok : pvcToDisk pvc = .ok d) :
    d.created_at = none := by
  unfold pvcToDisk at hok
  simp only [h1, h2] at hok
  repeat' split at hok
  all_goals simp_all
  all_goals (cases hok; rfl)

/-- C6 witness: the amended theorem applied to the legacy PVC. -/
theorem pvcToDisk_missing_created_at_witness : legacyDisk.created_at = none :=
  pvcToDisk_missing_created_at legacyPvc legacyDisk rfl rfl rfl

/-- C10 counterexample: the username spelled `a`, dash, slash, `b`
contains no double dash, yet storing it (slash becomes double dash) and
reading it back (double dash becomes slash) yields `a`, slash, dash,
`b`. -/
theorem owner_roundtrip_cx :
    hasDashDash ['a', '-', '/', 'b'] = false ∧
    decodeUserChars (encodeUserChars ['a', '-', '/', 'b']) ≠ ['a', '-', '/', 'b'] := by
  refine ⟨rfl, ?_⟩
  decide

/-- C10 (amended): the owner round-trips through the PVC labels for
every username containing neither a double dash nor a dash followed by a
slash; it can differ both for usernames with a double dash (`a--b`) and
for some without one (`a`, dash, slash, `b`). -/
theorem owner_roundtrip_amended :
    (∀ u : List Char, hasDashDash u = false → hasDashSlash u = false →
      decodeUserChars (encodeUserChars u) = u) ∧
    decodeUserChars (encodeUserChars ['a', '-', '-', 'b']) ≠ ['a', '-', '-', 'b'] ∧
    decodeUserChars (encodeUserChars ['a', '-', '/', 'b']) ≠ ['a', '-', '/', 'b'] :=
  ⟨decode_encode_user, by decide, by decide⟩

/-- C10 witness: `org/u` (a name with a slash, no dashes) survives the
round trip. -/
theorem owner_roundtrip_witness :
    hasDashDash ['o', 'r', 'g', '/', 'u'] = false ∧
    hasDashSlash ['o', 'r', 'g', '/', 'u'] = false ∧
    decodeUserChars (encodeUserChars ['o', 'r', 'g', '/', 'u']) = ['o', 'r', 'g', '/', 'u'] :=
  ⟨by decide, by decide,
   owner_roundtrip_amended.1 ['o', 'r', 'g', '/', 'u'] (by decide) (by decide)⟩

/-- Deleting a DiskNaming that is not there changes nothing (the code
swallows the `ResourceNotFound`). -/
theorem removeNaming_absent (l : List NamingRec) (ns nm : String)
    (h : lookupNaming l ns nm = none) : removeNaming l ns nm = l := by
  induction l with
  | nil => rfl
  | cons r rest ih =>
    simp only [lookupNaming] at h
    by_cases hr : r.namespc = ns ∧ r.name = nm
    · rw [if_pos hr] at h
      cases h
    · rw [if_neg hr] at h
      have hb : (!(r.namespc == ns && r.name == nm)) = true := by
        simp only [Bool.not_eq_true', Bool.and_eq_false_iff, beq_eq_false_iff_ne, ne_eq]
        by_cases h1 : r.namespc = ns
        · exact Or.inr (fun h2 => hr ⟨h1, h2⟩)
        · exact Or.inl h1
      simp only [removeNaming, List.filter_cons, hb, if_true]
      rw [show List.filter _ rest = removeNaming rest ns nm from rfl, ih h]

/-- C4: `remove_disk` issues, in order, the DiskNaming delete (harmless
when the naming is already absent), the patch setting both deleted-mark
labels to `"true"`, and the PVC delete; when the PVC is already gone the
patch fails and `DiskNotFound` is raised (after the naming was already
deleted), and the PVC delete is never issued. -/
theorem removeDisk_sequence (st : KubeState) (namespc : String) (disk : Disk) (n : String)
    (hname : disk.name = some n) (hn : n ≠ "") :
    (lookupNaming st.namings namespc (getDiskNamingName n disk.org_name disk.project_name) = none →
      removeNaming st.namings namespc (getDiskNamingName n disk.org_name disk.project_name)
        = st.namings) ∧
    (lookupPvc st.pvcs namespc disk.id = none →
      removeDisk st namespc disk =
        (.error .diskNotFound,
         { st with namings :=
             removeNaming st.namings namespc (getDiskNamingName n disk.org_name disk.project_name) },
         [.deleteDiskNaming namespc (getDiskNamingName n disk.org_name disk.project_name),
          .patchPvcLabels namespc disk.id deletedMarkLabels])) ∧
    (∀ p, lookupPvc st.pvcs namespc disk.id = some p →
      removeDisk st namespc disk =
        (.ok (),
         { namings :=
             removeNaming st.namings namespc (getDiskNamingName n disk.org_name disk.project_name),
           pvcs := removePvcFrom
             (updatePvcIn st.pvcs namespc disk.id (fun q => addLabels q deletedMarkLabels))
             namespc disk.id },
         [.deleteDiskNaming namespc (getDiskNamingName n disk.org_name disk.project_name),
          .patchPvcLabels namespc disk.id deletedMarkLabels,
          .deletePvc namespc disk.id])) := by
  refine ⟨removeNaming_absent _ _ _, ?_, ?_⟩
  · intro h
    simp [removeDisk, hname, hn, h]
  · intro p h
    simp [removeDisk, hname, hn, h]

/-- C4 witness: concrete removal ordering of the three kube calls. -/
theorem removeDisk_sequence_witness :
    removeDisk sampleRemoveState "ns1" sampleRemoveDisk =
      (.ok (), { namings := [], pvcs := [] },
       [.deleteDiskNaming "ns1" "db--acme--web",
        .patchPvcLabels "ns1" "disk-2" deletedMarkLabels,
        .deletePvc "ns1" "disk-2"]) := by
  have h := (removeDisk_sequence sampleRemoveState "ns1" sampleRemoveDisk "db" rfl
    (by decide)).2.2 sampleRemovePvc rfl
  rw [h]
  rfl

theorem lookupKV_append (l1 l2 : List (String × String)) (k : String) :
    lookupKV (l1 ++ l2) k = (lookupKV l1 k).orElse (fun _ => lookupKV l2 k) := by
  induction l1 with
  | nil => simp [lookupKV]
  | cons p rest ih =>
    obtain ⟨k', v⟩ := p
    by_cases h : k' = k <;> simp [lookupKV, h, ih]

theorem lifeSpanAnns_lookup_ne (ls : Option Int) (k : String)
    (h1 : DISK_API_LIFE_SPAN_ANN ≠ k) (h2 : APOLO_DISK_API_LIFE_SPAN_ANN ≠ k) :
    lookupKV (lifeSpanAnns ls) k = none := by
  cases ls with
  | none => rfl
  | some v =>
    by_cases hv : v ≠ 0 <;> simp [lifeSpanAnns, hv, lookupKV, h1, h2]

theorem requestAnns_created_apolo (req : DiskRequest) (now : String) :
    lookupKV (requestAnns req now) APOLO_DISK_API_CREATED_AT_ANN = some now := by
  simp [requestAnns, lookupKV_append, lookupKV,
    DISK_API_CREATED_AT_ANN, APOLO_DISK_API_CREATED_AT_ANN]

theorem requestAnns_created_legacy (req : DiskRequest) (now : String) :
    lookupKV (requestAnns req now) DISK_API_CREATED_AT_ANN = some now := by
  simp [requestAnns, lookupKV_append, lookupKV, DISK_API_CREATED_AT_ANN]

theorem requestAnns_name_apolo (req : DiskRequest) (now : String) (n : String)
    (hname : req.name = some n) (hn : n ≠ "") :
    lookupKV (requestAnns req now) APOLO_DISK_API_NAME_ANN = some n := by
  have hA : lookupKV [(DISK_API_CREATED_AT_ANN, now), (APOLO_DISK_API_CREATED_AT_ANN, now)]
      APOLO_DISK_API_NAME_ANN = none := by
    simp [lookupKV, DISK_API_CREATED_AT_ANN, APOLO_DISK_API_CREATED_AT_ANN,
      APOLO_DISK_API_NAME_ANN]
  have hL : lookupKV (lifeSpanAnns req.life_span) APOLO_DISK_API_NAME_ANN = none :=
    lifeSpanAnns_lookup_ne _ _ (by decide) (by decide)
  have hN : lookupKV (nameAnns req.name) APOLO_DISK_API_NAME_ANN = some n := by
    rw [hname]
    simp [nameAnns, hn, lookupKV, DISK_API_NAME_ANN, APOLO_DISK_API_NAME_ANN]
  rw [requestAnns, lookupKV_append, lookupKV_append, hA, hL, hN]
  rfl

/-- Running `_create_disk_naming` on the annotations `_request_to_pvc` builds
for a named request: no StatefulSet index, so no extra patches, and the
outcome reduces to the DiskNaming conflict check. -/
theorem createDiskNamingStep_on_request (req : DiskRequest) (now : String)
    (ns norg nproj pvcName : String) (namings : List NamingRec) (n : String)
    (hname : req.name = some n) (hn : n ≠ "") (hsuffix : statefulSuffix pvcName = none) :
    createDiskNamingStep ns norg nproj pvcName (requestAnns req now) namings =
      (match lookupNaming namings ns (getDiskNamingName n norg nproj) with
       | none => .ok ([], namings ++ [⟨ns, getDiskNamingName n norg nproj, pvcName⟩])
       | some existing_id =>
         if existing_id ≠ pvcName then .error .diskNameUsed
         else .ok ([], namings)) := by
  have hapolo := requestAnns_name_apolo req now n hname hn
  unfold createDiskNamingStep
  rw [hapolo]
  simp [pyOrStr, hn, hsuffix]

/-- Evaluating the webhook on the PVC that `create_disk` submits for a
named request: everything the service stamps is already present, so the
patch set is just the storage-class override, and the outcome reduces to
the DiskNaming conflict check. -/
theorem handlePvc_on_request (req : DiskRequest) (username now pvcName sc : String)
    (anow asc ns norg nproj : String) (namings : List NamingRec) (n : String)
    (hname : req.name = some n) (hn : n ≠ "") (hsuffix : statefulSuffix pvcName = none) :
    handlePvc (requestToPvc req username now pvcName sc) anow ns norg nproj asc namings =
      (match lookupNaming namings ns (getDiskNamingName n norg nproj) with
       | none => .ok ([.setStorageClass asc],
           namings ++ [⟨ns, getDiskNamingName n norg nproj, pvcName⟩])
       | some existing_id =>
         if existing_id ≠ pvcName then .error .diskNameUsed
         else .ok ([.setStorageClass asc], namings)) := by
  have hc1 := requestAnns_created_apolo req now
  have hc2 := requestAnns_created_legacy req now
  have ha1 : addKeyValueIfNotExist (requestAnns req now) PatchOp.addAnn
      APOLO_DISK_API_CREATED_AT_ANN anow = [] := by
    simp [addKeyValueIfNotExist, hc1]
  have ha2 : addKeyValueIfNotExist (requestAnns req now) PatchOp.addAnn
      DISK_API_CREATED_AT_ANN anow = [] := by
    simp [addKeyValueIfNotExist, hc2]
  have hlbl : ∀ key v, (lookupKV (requestLabels req username) key).isSome →
      addKeyValueIfNotExist (requestLabels req username) PatchOp.addLabel key v = [] := by
    intro key v h
    simp [addKeyValueIfNotExist, h]
  have e0 := createDiskNamingStep_on_request req now ns norg nproj pvcName namings n
    hname hn hsuffix
  unfold handlePvc
  simp only [requestToPvc]
  rw [e0, ha1, ha2]
  rw [hlbl DISK_API_MARK_LABEL "true" (by
        simp [requestLabels, lookupKV, USER_LABEL, APOLO_USER_LABEL, DISK_API_MARK_LABEL]),
      hlbl APOLO_DISK_API_MARK_LABEL "true" (by
        simp [requestLabels, lookupKV, USER_LABEL, APOLO_USER_LABEL, DISK_API_MARK_LABEL,
          APOLO_DISK_API_MARK_LABEL]),
      hlbl DISK_API_ORG_LABEL norg (by
        simp [requestLabels, lookupKV, USER_LABEL, APOLO_USER_LABEL, DISK_API_MARK_LABEL,
          APOLO_DISK_API_MARK_LABEL, DISK_API_ORG_LABEL]),
      hlbl APOLO_ORG_LABEL norg (by
        simp [requestLabels, lookupKV, USER_LABEL, APOLO_USER_LABEL, DISK_API_MARK_LABEL,
          APOLO_DISK_API_MARK_LABEL, DISK_API_ORG_LABEL, APOLO_ORG_LABEL]),
      hlbl DISK_API_PROJECT_LABEL nproj (by
        simp [requestLabels, lookupKV, USER_LABEL, APOLO_USER_LABEL, DISK_API_MARK_LABEL,
          APOLO_DISK_API_MARK_LABEL, DISK_API_ORG_LABEL, APOLO_ORG_LABEL,
          DISK_API_PROJECT_LABEL]),
      hlbl APOLO_PROJECT_LABEL nproj (by
        simp [requestLabels, lookupKV, USER_LABEL, APOLO_USER_LABEL, DISK_API_MARK_LABEL,
          APOLO_DISK_API_MARK_LABEL, DISK_API_ORG_LABEL, APOLO_ORG_LABEL,
          DISK_API_PROJECT_LABEL, APOLO_PROJECT_LABEL]),
      hlbl APOLO_USER_LABEL nproj (by
        simp [requestLabels, lookupKV, USER_LABEL, APOLO_USER_LABEL]),
      hlbl USER_LABEL nproj (by
        simp [requestLabels, lookupKV, USER_LABEL])]
  cases hlook : lookupNaming namings ns (getDiskNamingName n norg nproj) with
  | none => simp
  | some existing_id => by_cases hid : existing_id = pvcName <;> simp [hid]

theorem lookupNaming_mem (l : List NamingRec) (ns nm d : String)
    (h : lookupNaming l ns nm = some d) : ∃ r ∈ l, r.disk_id = d := by
  induction l with
  | nil => cases h
  | cons r rest ih =>
    simp only [lookupNaming] at h
    by_cases hr : r.namespc = ns ∧ r.name = nm
    · rw [if_pos hr] at h
      exact ⟨r, List.mem_cons_self r rest, (Option.some_inj.mp h)⟩
    · rw [if_neg hr] at h
      obtain ⟨r', hr', hd⟩ := ih h
      exact ⟨r', List.mem_cons_of_mem _ hr', hd⟩

theorem lookupNaming_none_keys (l : List NamingRec) (ns nm : String)
    (h : lookupNaming l ns nm = none) : ∀ r ∈ l, ¬(r.namespc = ns ∧ r.name = nm) := by
  induction l with
  | nil => intro r hr; cases hr
  | cons r rest ih =>
    simp only [lookupNaming] at h
    by_cases hr : r.namespc = ns ∧ r.name = nm
    · rw [if_pos hr] at h; cases h
    · rw [if_neg hr] at h
      intro r' hr'
      rcases List.mem_cons.mp hr' with rfl | hmem
      · exact hr
      · exact ih h r' hmem

/-- C1: for every `create_disk` request carrying a (truthy) name, the
composed create pipeline records the DiskNaming before the PVC exists:
when a DiskNaming with that name is already present in the
(org, project) namespace the create fails with `DiskNameUsed` and no PVC
is created; otherwise the DiskNaming — bound to the fresh PVC id — and
the PVC are both created.  Distinct naming keys stay distinct, so within
an (org, project) namespace at most one live disk carries a given name.
`pvcName` is the freshly generated `disk-<uuid4>` id: the freshness
hypothesis says no existing DiskNaming is bound to it, and the suffix
hypothesis says it does not end in dash-digits (a uuid4 ends in a hex
block, which is only violated for astronomically unlikely draws). -/
theorem createDisk_names_unique (st : KubeState) (req : DiskRequest)
    (username now pvcName sc ns anow asc : String) (n : String)
    (hname : req.name = some n) (hn : n ≠ "")
    (hsuffix : statefulSuffix pvcName = none)
    (hfresh : ∀ r ∈ st.namings, r.disk_id ≠ pvcName) :
    (∀ d, lookupNaming st.namings ns (getDiskNamingName n req.org_name req.project_name)
        = some d →
      createDisk st req username now pvcName sc ns anow asc req.org_name req.project_name
        = (.error .diskNameUsed, st)) ∧
    (lookupNaming st.namings ns (getDiskNamingName n req.org_name req.project_name) = none →
      createDisk st req username now pvcName sc ns anow asc req.org_name req.project_name
        = (.ok (applyPatches (requestToPvc req username now pvcName sc)
              [.setStorageClass asc]),
           { pvcs := st.pvcs
               ++ [(ns, applyPatches (requestToPvc req username now pvcName sc)
                     [.setStorageClass asc])],
             namings := st.namings
               ++ [⟨ns, getDiskNamingName n req.org_name req.project_name, pvcName⟩] })) ∧
    ((st.namings.map (fun r => (r.namespc, r.name))).Nodup →
      (((createDisk st req username now pvcName sc ns anow asc req.org_name
          req.project_name).2.namings.map (fun r => (r.namespc, r.name))).Nodup)) := by
  have e1 := handlePvc_on_request req username now pvcName sc anow asc ns
    req.org_name req.project_name st.namings n hname hn hsuffix
  refine ⟨?_, ?_, ?_⟩
  · intro d hlook
    have hid : d ≠ pvcName := by
      obtain ⟨r, hr, hrd⟩ := lookupNaming_mem st.namings ns _ d hlook
      rw [← hrd]
      exact hfresh r hr
    unfold createDisk
    simp only [e1, hlook]
    simp [hid]
  · intro hlook
    unfold createDisk
    simp only [e1, hlook]
  · intro hnodup
    cases hlook : lookupNaming st.namings ns
        (getDiskNamingName n req.org_name req.project_name) with
    | some d =>
      have hid : d ≠ pvcName := by
        obtain ⟨r, hr, hrd⟩ := lookupNaming_mem st.namings ns _ d hlook
        rw [← hrd]
        exact hfresh r hr
      unfold createDisk
      simp only [e1, hlook]
      simpa [hid] using hnodup
    | none =>
      unfold createDisk
      simp only [e1, hlook]
      have hkeys := lookupNaming_none_keys st.namings ns
        (getDiskNamingName n req.org_name req.project_name) hlook
      have hnotmem : (ns, getDiskNamingName n req.org_name req.project_name)
          ∉ st.namings.map (fun r => (r.namespc, r.name)) := by
        intro hmem
        obtain ⟨r, hr, hreq⟩ := List.mem_map.mp hmem
        exact hkeys r hr ⟨congrArg Prod.fst hreq, congrArg Prod.snd hreq⟩
      simp [List.nodup_append, hnodup, hnotmem]

/-- C1 witness: creating `db` in an empty cluster records the DiskNaming
bound to the fresh PVC id and creates the PVC. -/
theorem createDisk_names_unique_witness :
    createDisk emptyKube namedRequest "alice" "0" "disk-9f" "" "ns1" "1" "standard"
        namedRequest.org_name namedRequest.project_name
      = (.ok (applyPatches (requestToPvc namedRequest "alice" "0" "disk-9f" "")
            [.setStorageClass "standard"]),
         { pvcs := [("ns1", applyPatches (requestToPvc namedRequest "alice" "0" "disk-9f" "")
              [.setStorageClass "standard"])],
           namings := [⟨"ns1", getDiskNamingName "db" namedRequest.org_name
              namedRequest.project_name, "disk-9f"⟩] }) := by
  have h := (createDisk_names_unique emptyKube namedRequest "alice" "0" "disk-9f" ""
    "ns1" "1" "standard" "db" rfl (by decide) (by decide)
    (fun r hr => absurd hr (List.not_mem_nil r))).2.1 rfl
  simpa using h

theorem applyPatches_cons (pvc : PvcObject) (p : PatchOp) (ps : List PatchOp) :
    applyPatches pvc (p :: ps) = applyPatches (applyPatch pvc p) ps := rfl

theorem applyPatches_append (pvc : PvcObject) (l1 l2 : List PatchOp) :
    applyPatches pvc (l1 ++ l2) = applyPatches (applyPatches pvc l1) l2 := by
  simp [applyPatches, List.foldl_append]

theorem applyPatches_name (pvc : PvcObject) (ps : List PatchOp) :
    (applyPatches pvc ps).name = pvc.name := by
  induction ps generalizing pvc with
  | nil => rfl
  | cons p rest ih =>
    rw [applyPatches_cons, ih]
    cases p <;> rfl

theorem applyPatches_annotations (pvc : PvcObject) (ps : List PatchOp) :
    (applyPatches pvc ps).annotations = ps.foldl annEffect pvc.annotations := by
  induction ps generalizing pvc with
  | nil => rfl
  | cons p rest ih =>
    have hp : (applyPatch pvc p).annotations = annEffect pvc.annotations p := by
      cases p <;> rfl
    rw [applyPatches_cons, ih, List.foldl_cons, hp]

theorem applyPatches_labels (pvc : PvcObject) (ps : List PatchOp) :
    (applyPatches pvc ps).labels = ps.foldl labelEffect pvc.labels := by
  induction ps generalizing pvc with
  | nil => rfl
  | cons p rest ih =>
    have hp : (applyPatch pvc p).labels = labelEffect pvc.labels p := by
      cases p <;> rfl
    rw [applyPatches_cons, ih, List.foldl_cons, hp]

theorem applyPatches_metaHasLabels (pvc : PvcObject) (ps : List PatchOp) :
    (applyPatches pvc ps).metaHasLabels = ps.foldl metaLabelsEffect pvc.metaHasLabels := by
  induction ps generalizing pvc with
  | nil => rfl
  | cons p rest ih =>
    have hp : (applyPatch pvc p).metaHasLabels = metaLabelsEffect pvc.metaHasLabels p := by
      cases p <;> rfl
    rw [applyPatches_cons, ih, List.foldl_cons, hp]

theorem applyPatches_metaHasAnnotations (pvc : PvcObject) (ps : List PatchOp) :
    (applyPatches pvc ps).metaHasAnnotations
      = ps.foldl metaAnnsEffect pvc.metaHasAnnotations := by
  induction ps generalizing pvc with
  | nil => rfl
  | cons p rest ih =>
    have hp : (applyPatch pvc p).metaHasAnnotations
        = metaAnnsEffect pvc.metaHasAnnotations p := by
      cases p <;> rfl
    rw [applyPatches_cons, ih, List.foldl_cons, hp]

theorem applyPatches_storageClassName (pvc : PvcObject) (ps : List PatchOp) :
    (applyPatches pvc ps).storageClassName = ps.foldl scEffect pvc.storageClassName := by
  induction ps generalizing pvc with
  | nil => rfl
  | cons p rest ih =>
    have hp : (applyPatch pvc p).storageClassName = scEffect pvc.storageClassName p := by
      cases p <;> rfl
    rw [applyPatches_cons, ih, List.foldl_cons, hp]

theorem foldl_metaLabelsEffect_true (ps : List PatchOp) :
    ps.foldl metaLabelsEffect true = true := by
  induction ps with
  | nil => rfl
  | cons p rest ih =>
    rw [List.foldl_cons, show metaLabelsEffect true p = true from by cases p <;> rfl]
    exact ih

theorem foldl_metaAnnsEffect_true (ps : List PatchOp) :
    ps.foldl metaAnnsEffect true = true := by
  induction ps with
  | nil => rfl
  | cons p rest ih =>
    rw [List.foldl_cons, show metaAnnsEffect true p = true from by cases p <;> rfl]
    exact ih

theorem foldl_annEffect_addIf (orig s : List (String × String)) (k v : String)
    (rest : List PatchOp) :
    List.foldl annEffect s (addKeyValueIfNotExist orig PatchOp.addAnn k v ++ rest)
      = List.foldl annEffect (addIfAbsentPair orig s k v) rest := by
  by_cases h : (lookupKV orig k).isSome <;>
    simp [addKeyValueIfNotExist, addIfAbsentPair, h, annEffect]

theorem foldl_labelEffect_addIf (orig s : List (String × String)) (k v : String)
    (rest : List PatchOp) :
    List.foldl labelEffect s (addKeyValueIfNotExist orig PatchOp.addLabel k v ++ rest)
      = List.foldl labelEffect (addIfAbsentPair orig s k v) rest := by
  by_cases h : (lookupKV orig k).isSome <;>
    simp [addKeyValueIfNotExist, addIfAbsentPair, h, labelEffect]

theorem foldl_annEffect_labelAdd (orig s : List (String × String)) (k v : String)
    (rest : List PatchOp) :
    List.foldl annEffect s (addKeyValueIfNotExist orig PatchOp.addLabel k v ++ rest)
      = List.foldl annEffect s rest := by
  by_cases h : (lookupKV orig k).isSome <;> simp [addKeyValueIfNotExist, h, annEffect]

theorem foldl_labelEffect_annAdd (orig s : List (String × String)) (k v : String)
    (rest : List PatchOp) :
    List.foldl labelEffect s (addKeyValueIfNotExist orig PatchOp.addAnn k v ++ rest)
      = List.foldl labelEffect s rest := by
  by_cases h : (lookupKV orig k).isSome <;> simp [addKeyValueIfNotExist, h, labelEffect]

theorem addIfAbsentPair_isSome_mono (orig s : List (String × String)) (k v key : String)
    (h : (lookupKV s key).isSome) :
    (lookupKV (addIfAbsentPair orig s k v) key).isSome := by
  unfold addIfAbsentPair
  by_cases hc : (lookupKV orig k).isSome
  · simpa [hc] using h
  · rw [if_neg hc, lookupKV_upsertKV]
    by_cases hk : k = key <;> simp [hk, h]

theorem addIfAbsentChain_isSome_mono (orig : List (String × String))
    (specs : List (String × String)) :
    ∀ s key, (lookupKV s key).isSome →
      (lookupKV (addIfAbsentChain orig specs s) key).isSome := by
  induction specs with
  | nil => intro s key h; exact h
  | cons kv rest ih =>
    intro s key h
    exact ih _ key (addIfAbsentPair_isSome_mono orig s kv.1 kv.2 key h)

theorem addIfAbsentChain_covers (orig : List (String × String))
    (specs : List (String × String)) :
    ∀ s, (∀ kv ∈ specs, (lookupKV orig kv.1).isSome → (lookupKV s kv.1).isSome) →
      ∀ kv ∈ specs, (lookupKV (addIfAbsentChain orig specs s) kv.1).isSome := by
  induction specs with
  | nil => intro s _ kv hkv; cases hkv
  | cons kv0 rest ih =>
    intro s hs kv hkv
    rcases List.mem_cons.mp hkv with rfl | hmem
    · have hpair : (lookupKV (addIfAbsentPair orig s kv.1 kv.2) kv.1).isSome := by
        unfold addIfAbsentPair
        by_cases hc : (lookupKV orig kv.1).isSome
        · rw [if_pos hc]
          exact hs kv (List.mem_cons_self kv rest) hc
        · rw [if_neg hc, lookupKV_upsertKV]
          simp
      exact addIfAbsentChain_isSome_mono orig rest _ kv.1 hpair
    · refine ih _ ?_ kv hmem
      intro kv' hkv' h'
      exact addIfAbsentPair_isSome_mono orig s kv0.1 kv0.2 kv'.1
        (hs kv' (List.mem_cons_of_mem _ hkv') h')

theorem addIfAbsentChain_lookup_ne (orig : List (String × String))
    (specs : List (String × String)) :
    ∀ s key, (∀ kv ∈ specs, key ≠ kv.1) →
      lookupKV (addIfAbsentChain orig specs s) key = lookupKV s key := by
  induction specs with
  | nil => intro s key _; rfl
  | cons kv0 rest ih =>
    intro s key hk
    have hne : key ≠ kv0.1 := hk kv0 (List.mem_cons_self kv0 rest)
    rw [show addIfAbsentChain orig (kv0 :: rest) s
        = addIfAbsentChain orig rest (addIfAbsentPair orig s kv0.1 kv0.2) from rfl,
      ih _ key (fun kv hkv => hk kv (List.mem_cons_of_mem _ hkv))]
    unfold addIfAbsentPair
    by_cases hc : (lookupKV orig kv0.1).isSome
    · simp [hc]
    · simp [hc, lookupKV_upsertKV, Ne.symm hne]

theorem lookupNaming_append_snoc (l : List NamingRec) (ns nm id : String)
    (h : lookupNaming l ns nm = none) :
    lookupNaming (l ++ [⟨ns, nm, id⟩]) ns nm = some id := by
  induction l with
  | nil => simp [lookupNaming]
  | cons r rest ih =>
    simp only [lookupNaming] at h ⊢
    by_cases hr : r.namespc = ns ∧ r.name = nm
    · rw [if_pos hr] at h; cases h
    · rw [if_neg hr] at h ⊢
      exact ih h

theorem setStorageClass_fix (p : PvcObject) (v : String)
    (h : p.storageClassName = some v) : applyPatch p (.setStorageClass v) = p := by
  cases p
  simp_all [applyPatch]

theorem foldl_annEffect_addIf_nil (orig s : List (String × String)) (k v : String) :
    List.foldl annEffect s (addKeyValueIfNotExist orig PatchOp.addAnn k v)
      = addIfAbsentPair orig s k v := by
  by_cases h : (lookupKV orig k).isSome <;>
    simp [addKeyValueIfNotExist, addIfAbsentPair, h, annEffect]

theorem foldl_labelEffect_addIf_nil (orig s : List (String × String)) (k v : String) :
    List.foldl labelEffect s (addKeyValueIfNotExist orig PatchOp.addLabel k v)
      = addIfAbsentPair orig s k v := by
  by_cases h : (lookupKV orig k).isSome <;>
    simp [addKeyValueIfNotExist, addIfAbsentPair, h, labelEffect]

theorem foldl_annEffect_labelAdd_nil (orig s : List (String × String)) (k v : String) :
    List.foldl annEffect s (addKeyValueIfNotExist orig PatchOp.addLabel k v) = s := by
  by_cases h : (lookupKV orig k).isSome <;> simp [addKeyValueIfNotExist, h, annEffect]

theorem foldl_labelEffect_annAdd_nil (orig s : List (String × String)) (k v : String) :
    List.foldl labelEffect s (addKeyValueIfNotExist orig PatchOp.addAnn k v) = s := by
  by_cases h : (lookupKV orig k).isSome <;> simp [addKeyValueIfNotExist, h, labelEffect]

/-- With no StatefulSet index on the PVC name, a successful
`_create_disk_naming` never emits annotation patches. -/
theorem createDiskNamingStep_np_nil (ns norg nproj pvcName : String)
    (anns : List (String × String)) (namings n2 : List NamingRec) (np : List PatchOp)
    (hsuffix : statefulSuffix pvcName = none)
    (hok : createDiskNamingStep ns norg nproj pvcName anns namings = .ok (np, n2)) :
    np = [] := by
  unfold createDiskNamingStep at hok
  cases hdn : pyOrStr (lookupKV anns APOLO_DISK_API_NAME_ANN)
      (lookupKV anns DISK_API_NAME_ANN) with
  | none =>
    simp only [hdn, Except.ok.injEq, Prod.mk.injEq] at hok
    exact hok.1.symm
  | some dn =>
    simp only [hdn, hsuffix] at hok
    by_cases hdn0 : dn = ""
    · simp only [hdn0] at hok
      simp at hok
      tauto
    · simp only [if_neg hdn0] at hok
      cases hl : lookupNaming namings ns (getDiskNamingName dn norg nproj) with
      | none =>
        simp only [hl, Except.ok.injEq, Prod.mk.injEq] at hok
        exact hok.1.symm
      | some id =>
        simp only [hl] at hok
        by_cases hid : id = pvcName
        · simp only [hid] at hok
          simp at hok
          tauto
        · simp only [ne_eq, hid, not_false_eq_true, if_true] at hok
          cases hok

/-- Re-running `_create_disk_naming` after a successful first run (no
StatefulSet index) is a no-op: the DiskNaming now exists and is bound to
this PVC, so the step succeeds without patches or store changes.
`anns2` are the annotations of the patched object; only the name keys
are consulted, and they agree with the original. -/
theorem createDiskNamingStep_rerun (ns norg nproj pvcName : String)
    (anns anns2 : List (String × String)) (namings n2 : List NamingRec) (np : List PatchOp)
    (hsuffix : statefulSuffix pvcName = none)
    (hag1 : lookupKV anns2 APOLO_DISK_API_NAME_ANN = lookupKV anns APOLO_DISK_API_NAME_ANN)
    (hag2 : lookupKV anns2 DISK_API_NAME_ANN = lookupKV anns DISK_API_NAME_ANN)
    (hok : createDiskNamingStep ns norg nproj pvcName anns namings = .ok (np, n2)) :
    createDiskNamingStep ns norg nproj pvcName anns2 n2 = .ok ([], n2) := by
  unfold createDiskNamingStep at hok ⊢
  rw [hag1, hag2]
  cases hdn : pyOrStr (lookupKV anns APOLO_DISK_API_NAME_ANN)
      (lookupKV anns DISK_API_NAME_ANN) with
  | none => rfl
  | some dn =>
    simp only [hdn, hsuffix] at hok ⊢
    by_cases hdn0 : dn = ""
    · simp [hdn0]
    · simp only [if_neg hdn0] at hok ⊢
      cases hl : lookupNaming namings ns (getDiskNamingName dn norg nproj) with
      | none =>
        simp only [hl, Except.ok.injEq, Prod.mk.injEq] at hok
        obtain ⟨h1, h2⟩ := hok
        rw [← h2, lookupNaming_append_snoc namings ns (getDiskNamingName dn norg nproj)
          pvcName hl]
        simp [← h2]
      | some id =>
        simp only [hl] at hok
        by_cases hid : id = pvcName
        · simp only [hid] at hok
          simp at hok
          obtain ⟨h1, h2⟩ := hok
          rw [← h2, hl]
          simp [hid, ← h2]
        · simp only [ne_eq, hid, not_false_eq_true, if_true] at hok
          cases hok

theorem run1_metaHasLabels (pvc : PvcObject) (now norg nproj sc : String) :
    (applyPatches pvc (run1Patches pvc now norg nproj sc [])).metaHasLabels = true := by
  rw [applyPatches_metaHasLabels]
  unfold run1Patches
  cases hml : pvc.metaHasLabels <;>
    simp [hml, List.foldl_append, metaLabelsEffect, foldl_metaLabelsEffect_true]

theorem run1_metaHasAnnotations (pvc : PvcObject) (now norg nproj sc : String) :
    (applyPatches pvc (run1Patches pvc now norg nproj sc [])).metaHasAnnotations = true := by
  rw [applyPatches_metaHasAnnotations]
  unfold run1Patches
  cases hml : pvc.metaHasLabels <;> cases hma : pvc.metaHasAnnotations <;>
    simp [hml, hma, List.foldl_append, metaAnnsEffect, foldl_metaAnnsEffect_true]

theorem run1_storageClassName (pvc : PvcObject) (now norg nproj sc : String) :
    (applyPatches pvc (run1Patches pvc now norg nproj sc [])).storageClassName = some sc := by
  rw [applyPatches_storageClassName]
  unfold run1Patches
  simp [List.foldl_append, scEffect]

theorem run1_annotations (pvc : PvcObject) (now norg nproj sc : String)
    (hwf : pvc.wellFormed) :
    (applyPatches pvc (run1Patches pvc now norg nproj sc [])).annotations
      = addIfAbsentChain pvc.annotations (pvcAnnSpecs now) pvc.annotations := by
  rw [applyPatches_annotations]
  unfold run1Patches
  cases hml : pvc.metaHasLabels <;> cases hma : pvc.metaHasAnnotations
  · have ha0 : pvc.annotations = [] := hwf.2 hma
    simp [hml, hma, ha0, List.foldl_append, annEffect, foldl_annEffect_addIf_nil,
      foldl_annEffect_labelAdd_nil, addIfAbsentChain, pvcAnnSpecs]
  · simp [hml, hma, List.foldl_append, annEffect, foldl_annEffect_addIf_nil,
      foldl_annEffect_labelAdd_nil, addIfAbsentChain, pvcAnnSpecs]
  · have ha0 : pvc.annotations = [] := hwf.2 hma
    simp [hml, hma, ha0, List.foldl_append, annEffect, foldl_annEffect_addIf_nil,
      foldl_annEffect_labelAdd_nil, addIfAbsentChain, pvcAnnSpecs]
  · simp [hml, hma, List.foldl_append, annEffect, foldl_annEffect_addIf_nil,
      foldl_annEffect_labelAdd_nil, addIfAbsentChain, pvcAnnSpecs]

theorem run1_labels (pvc : PvcObject) (now norg nproj sc : String)
    (hwf : pvc.wellFormed) :
    (applyPatches pvc (run1Patches pvc now norg nproj sc [])).labels
      = addIfAbsentChain pvc.labels (pvcLabelSpecs norg nproj) pvc.labels := by
  rw [applyPatches_labels]
  unfold run1Patches
  cases hml : pvc.metaHasLabels <;> cases hma : pvc.metaHasAnnotations
  · have hl0 : pvc.labels = [] := hwf.1 hml
    simp [hml, hma, hl0, List.foldl_append, labelEffect, foldl_labelEffect_addIf_nil,
      foldl_labelEffect_annAdd_nil, addIfAbsentChain, pvcLabelSpecs]
  · have hl0 : pvc.labels = [] := hwf.1 hml
    simp [hml, hma, hl0, List.foldl_append, labelEffect, foldl_labelEffect_addIf_nil,
      foldl_labelEffect_annAdd_nil, addIfAbsentChain, pvcLabelSpecs]
  · simp [hml, hma, List.foldl_append, labelEffect, foldl_labelEffect_addIf_nil,
      foldl_labelEffect_annAdd_nil, addIfAbsentChain, pvcLabelSpecs]
  · simp [hml, hma, List.foldl_append, labelEffect, foldl_labelEffect_addIf_nil,
      foldl_labelEffect_annAdd_nil, addIfAbsentChain, pvcLabelSpecs]

/-- C3 (amended): re-submitting the patched object is *almost* a fixed
point: for every PVC admission request whose name carries no trailing
StatefulSet index, re-invoking `_handle_pvc` on the patched object
produces the patch set `[storage-class override]` — not the empty set —
and applying that patch changes nothing, since the storage class was
already forced on the first pass. -/
theorem handlePvc_reinvocation (pvc : PvcObject) (now1 now2 ns norg nproj sc : String)
    (namings namings2 : List NamingRec) (patches : List PatchOp)
    (hwf : pvc.wellFormed)
    (hsuffix : statefulSuffix pvc.name = none)
    (hok : handlePvc pvc now1 ns norg nproj sc namings = .ok (patches, namings2)) :
    handlePvc (applyPatches pvc patches) now2 ns norg nproj sc namings2
      = .ok ([.setStorageClass sc], namings2) ∧
    applyPatches (applyPatches pvc patches) [.setStorageClass sc]
      = applyPatches pvc patches := by
  unfold handlePvc at hok
  cases hstep : createDiskNamingStep ns norg nproj pvc.name pvc.annotations namings with
  | error e =>
    simp only [hstep] at hok
    cases hok
  | ok pr =>
    obtain ⟨np, n2⟩ := pr
    simp only [hstep, Except.ok.injEq, Prod.mk.injEq] at hok
    obtain ⟨hpatch, hnam⟩ := hok
    have hnp : np = [] := createDiskNamingStep_np_nil ns norg nproj pvc.name
      pvc.annotations namings n2 np hsuffix hstep
    subst hnp
    subst hnam
    have hpatch2 : patches = run1Patches pvc now1 norg nproj sc [] := by
      rw [← hpatch]
      rfl
    subst hpatch2
    have hml := run1_metaHasLabels pvc now1 norg nproj sc
    have hma := run1_metaHasAnnotations pvc now1 norg nproj sc
    have hanns := run1_annotations pvc now1 norg nproj sc hwf
    have hlbls := run1_labels pvc now1 norg nproj sc hwf
    have hnm := applyPatches_name pvc (run1Patches pvc now1 norg nproj sc [])
    have hsc := run1_storageClassName pvc now1 norg nproj sc
    have hcovA := addIfAbsentChain_covers pvc.annotations (pvcAnnSpecs now1)
      pvc.annotations (fun kv _ h => h)
    have hpa1 : (lookupKV (addIfAbsentChain pvc.annotations (pvcAnnSpecs now1)
        pvc.annotations) APOLO_DISK_API_CREATED_AT_ANN).isSome := by
      simpa using hcovA (APOLO_DISK_API_CREATED_AT_ANN, now1) (by simp [pvcAnnSpecs])
    have hpa2 : (lookupKV (addIfAbsentChain pvc.annotations (pvcAnnSpecs now1)
        pvc.annotations) DISK_API_CREATED_AT_ANN).isSome := by
      simpa using hcovA (DISK_API_CREATED_AT_ANN, now1) (by simp [pvcAnnSpecs])
    have hcovL := addIfAbsentChain_covers pvc.labels (pvcLabelSpecs norg nproj)
      pvc.labels (fun kv _ h => h)
    have hpl1 : (lookupKV (addIfAbsentChain pvc.labels (pvcLabelSpecs norg nproj)
        pvc.labels) DISK_API_MARK_LABEL).isSome := by
      simpa using hcovL (DISK_API_MARK_LABEL, "true") (by simp [pvcLabelSpecs])
    have hpl2 : (lookupKV (addIfAbsentChain pvc.labels (pvcLabelSpecs norg nproj)
        pvc.labels) APOLO_DISK_API_MARK_LABEL).isSome := by
      simpa using hcovL (APOLO_DISK_API_MARK_LABEL, "true") (by simp [pvcLabelSpecs])
    have hpl3 : (lookupKV (addIfAbsentChain pvc.labels (pvcLabelSpecs norg nproj)
        pvc.labels) DISK_API_ORG_LABEL).isSome := by
      simpa using hcovL (DISK_API_ORG_LABEL, norg) (by simp [pvcLabelSpecs])
    have hpl4 : (lookupKV (addIfAbsentChain pvc.labels (pvcLabelSpecs norg nproj)
        pvc.labels) APOLO_ORG_LABEL).isSome := by
      simpa using hcovL (APOLO_ORG_LABEL, norg) (by simp [pvcLabelSpecs])
    have hpl5 : (lookupKV (addIfAbsentChain pvc.labels (pvcLabelSpecs norg nproj)
        pvc.labels) DISK_API_PROJECT_LABEL).isSome := by
      simpa using hcovL (DISK_API_PROJECT_LABEL, nproj) (by simp [pvcLabelSpecs])
    have hpl6 : (lookupKV (addIfAbsentChain pvc.labels (pvcLabelSpecs norg nproj)
        pvc.labels) APOLO_PROJECT_LABEL).isSome := by
      simpa using hcovL (APOLO_PROJECT_LABEL, nproj) (by simp [pvcLabelSpecs])
    have hpl7 : (lookupKV (addIfAbsentChain pvc.labels (pvcLabelSpecs norg nproj)
        pvc.labels) APOLO_USER_LABEL).isSome := by
      simpa using hcovL (APOLO_USER_LABEL, nproj) (by simp [pvcLabelSpecs])
    have hpl8 : (lookupKV (addIfAbsentChain pvc.labels (pvcLabelSpecs norg nproj)
        pvc.labels) USER_LABEL).isSome := by
      simpa using hcovL (USER_LABEL, nproj) (by simp [pvcLabelSpecs])
    have hag1 : lookupKV (addIfAbsentChain pvc.annotations (pvcAnnSpecs now1)
        pvc.annotations) APOLO_DISK_API_NAME_ANN
          = lookupKV pvc.annotations APOLO_DISK_API_NAME_ANN := by
      apply addIfAbsentChain_lookup_ne
      intro kv hkv
      simp [pvcAnnSpecs] at hkv
      rcases hkv with rfl | rfl
      · exact (by decide : APOLO_DISK_API_NAME_ANN ≠ APOLO_DISK_API_CREATED_AT_ANN)
      · exact (by decide : APOLO_DISK_API_NAME_ANN ≠ DISK_API_CREATED_AT_ANN)
    have hag2 : lookupKV (addIfAbsentChain pvc.annotations (pvcAnnSpecs now1)
        pvc.annotations) DISK_API_NAME_ANN
          = lookupKV pvc.annotations DISK_API_NAME_ANN := by
      apply addIfAbsentChain_lookup_ne
      intro kv hkv
      simp [pvcAnnSpecs] at hkv
      rcases hkv with rfl | rfl
      · exact (by decide : DISK_API_NAME_ANN ≠ APOLO_DISK_API_CREATED_AT_ANN)
      · exact (by decide : DISK_API_NAME_ANN ≠ DISK_API_CREATED_AT_ANN)
    have hstep2 := createDiskNamingStep_rerun ns norg nproj pvc.name pvc.annotations
      (addIfAbsentChain pvc.annotations (pvcAnnSpecs now1) pvc.annotations)
      namings n2 [] hsuffix hag1 hag2 hstep
    constructor
    · unfold handlePvc
      rw [hml, hma, hanns, hlbls, hnm, hstep2]
      simp [addKeyValueIfNotExist, hpa1, hpa2, hpl1, hpl2, hpl3, hpl4, hpl5, hpl6,
        hpl7, hpl8]
    · exact setStorageClass_fix _ sc hsc

/-- C3 counterexample: feeding the patched object back to `_handle_pvc`
does **not** produce an empty patch set — the storage-class override is
emitted unconditionally on every invocation. -/
theorem handlePvc_reinvocation_cx :
    handlePvc cxPvc "t1" "ns1" "acme" "web" "standard" [] = .ok (cxRun1Patches, []) ∧
    handlePvc (applyPatches cxPvc cxRun1Patches) "t2" "ns1" "acme" "web" "standard" []
      = .ok ([.setStorageClass "standard"], []) ∧
    ([PatchOp.setStorageClass "standard"] : List PatchOp) ≠ [] := by
  refine ⟨rfl, rfl, ?_⟩
  simp

/-- C3 witness: the amended theorem applied to `cxPvc`. -/
theorem handlePvc_reinvocation_witness :
    handlePvc (applyPatches cxPvc cxRun1Patches) "t2" "ns1" "acme" "web" "standard" []
      = .ok ([.setStorageClass "standard"], []) ∧
    applyPatches (applyPatches cxPvc cxRun1Patches) [.setStorageClass "standard"]
      = applyPatches cxPvc cxRun1Patches :=
  handlePvc_reinvocation cxPvc "t1" "t2" "ns1" "acme" "web" "standard" [] []
    cxRun1Patches ⟨fun _ => rfl, fun _ => rfl⟩ rfl rfl

